import Mathlib

/-!
Verification development for the missile-intercepts repository.

The Python source is shallowly embedded in Lean:
* angles, distances and velocities become exact real numbers (`ℝ`);
* the numpy float operations that can produce non-finite values are
  modelled by the type `NFloat` (finite real, +inf, -inf, NaN) with
  IEEE-754 special-value propagation rules;
* fallible Python code (subscripting `None`, missing dict keys, explicit
  `raise`) becomes `Except PyError`;
* the object state mutated by the methods (`self.build_data`,
  `self.trajectory_data`, ...) is passed explicitly: each method returns
  the updated object.

Sources embedded below:
* `src/Code/Utils/geo_utils.py` (the geodetic function library),
* `src/src/utils.py` (the physical constants),
* `src/src/missiles_abstract.py` (shared `Missile` operations),
* `src/src/missiles_ballistic.py` (`BallisticMissile`),
* `src/src/missiles_interceptor.py` (`TerminalInterceptor`).
-/

namespace MissileIntercepts

open Real

/-! ### Constants (src/src/utils.py `get_constants`, src/Code/Utils/geo_utils.py) -/

/-- `EARTH_RADIUS_KM = 6378` (geo_utils.py line 8). -/
def EARTH_RADIUS_KM : ℝ := 6378

/-- `GRAVITY_ACCEL_KM_PER_S2 = -0.0098` (utils.py `get_constants`). -/
def GRAVITY_ACCEL_KM_PER_S2 : ℝ := -0.0098

/-- `np.pi`: the float64 constant the source multiplies by.  Its exact
value is `884279719003555 / 2^48 = 3.14159265358979311599…`, which is
strictly *below* the real `π = 3.14159265358979323846…`.  This gap is
behaviourally relevant: `deg_to_rad(90) = np.pi/2 < π/2`, so the code
never evaluates `cos` at exactly `π/2` — in particular
`np.cos(np.pi/2) ≈ 6.12e-17 > 0`, which is why the n-vector round trip
recovers the longitude even at the poles. -/
noncomputable def np_pi : ℝ := 884279719003555 / 281474976710656

namespace Geo

/-! ### Pure geodetic functions (src/Code/Utils/geo_utils.py), over exact reals.

Finite float64 arithmetic is idealized as exact real arithmetic, but
the program's `np.pi` constant is kept at its exact rational float64
value in `deg_to_rad`/`rad_to_deg`, because the latitude-boundary
behaviour of the n-vector round trip depends on `np.pi/2` being
strictly below `π/2` (see `np_pi`).  `convert_trig_to_compass_angle`
is stated with the ideal `π`: its modulo properties (range,
periodicity, the degree-mode values) hold for any positive modulus and
do not depend on the 1.2e-16 difference between `np.pi` and `π`. -/

/-- `deg_to_rad(degrees) = degrees * np.pi / 180`. -/
noncomputable def deg_to_rad (degrees : ℝ) : ℝ := degrees * np_pi / 180

/-- `rad_to_deg(radians) = radians * 180 / np.pi`. -/
noncomputable def rad_to_deg (radians : ℝ) : ℝ := radians * 180 / np_pi

/-- Python float `%` for a positive modulus: `x % m = x - m * ⌊x / m⌋`,
which lies in `[0, m)` when `m > 0` (the only way `%` is used in
`convert_trig_to_compass_angle` and `calculate_initial_bearing`). -/
noncomputable def float_mod (x m : ℝ) : ℝ := x - m * ⌊x / m⌋

/-- `np.arctan2(y, x)`: the angle of the point `(x, y)` in `(-π, π]`,
with `np.arctan2(0, 0) = 0`.  Modelled as the complex argument of
`x + y·i` (Mathlib `Complex.arg` has exactly this range and convention
on reals without signed zeros). -/
noncomputable def np_arctan2 (y x : ℝ) : ℝ := Complex.arg ((x : ℂ) + (y : ℂ) * Complex.I)

/-- `convert_trig_to_compass_angle(trig_angle, radians)` (geo_utils.py
lines 31-47): `((π/2) - a) % (2π)` in radian mode, `(90 - a) % 360` in
degree mode. -/
noncomputable def convert_trig_to_compass_angle (trig_angle : ℝ) (radians : Bool) : ℝ :=
  if radians then float_mod (π / 2 - trig_angle) (2 * π)
  else float_mod (90 - trig_angle) 360

/-- A call of `convert_trig_to_compass_angle` that omits the `radians`
flag: the Python signature is `convert_trig_to_compass_angle(trig_angle,
radians: bool = True)`, so the omitted flag defaults to `True`. -/
noncomputable def convert_trig_to_compass_angle_default (trig_angle : ℝ) : ℝ :=
  convert_trig_to_compass_angle trig_angle true

/-- `convert_latlon_to_nvector(lat_deg, lon_deg)` (geo_utils.py lines
49-69): `(cos lat · cos lon, cos lat · sin lon, sin lat)` after
degree-to-radian conversion. -/
noncomputable def convert_latlon_to_nvector (lat_deg lon_deg : ℝ) : ℝ × ℝ × ℝ :=
  let lat_rad := deg_to_rad lat_deg
  let lon_rad := deg_to_rad lon_deg
  (Real.cos lat_rad * Real.cos lon_rad, Real.cos lat_rad * Real.sin lon_rad, Real.sin lat_rad)

/-- `convert_nvector_to_latlon(nvector)` (geo_utils.py lines 71-89):
`lat = atan2(z, sqrt(x²+y²))`, `lon = atan2(y, x)`, both in degrees. -/
noncomputable def convert_nvector_to_latlon (nvector : ℝ × ℝ × ℝ) : ℝ × ℝ :=
  let x := nvector.1
  let y := nvector.2.1
  let z := nvector.2.2
  (rad_to_deg (np_arctan2 z (Real.sqrt (x ^ 2 + y ^ 2))), rad_to_deg (np_arctan2 y x))

/-- `calculate_great_circle_distance` (geo_utils.py lines 91-121):
haversine formula on a sphere of radius `EARTH_RADIUS_KM`. -/
noncomputable def calculate_great_circle_distance
    (origin_lat_deg origin_lon_deg dest_lat_deg dest_lon_deg : ℝ) : ℝ :=
  let origin_lat_rad := deg_to_rad origin_lat_deg
  let origin_lon_rad := deg_to_rad origin_lon_deg
  let dest_lat_rad := deg_to_rad dest_lat_deg
  let dest_lon_rad := deg_to_rad dest_lon_deg
  let delta_lat_rad := dest_lat_rad - origin_lat_rad
  let delta_lon_rad := dest_lon_rad - origin_lon_rad
  let a := Real.sin (delta_lat_rad / 2) ^ 2
    + Real.cos origin_lat_rad * Real.cos dest_lat_rad * Real.sin (delta_lon_rad / 2) ^ 2
  let ang_dist_rad := 2 * np_arctan2 (Real.sqrt a) (Real.sqrt (1 - a))
  EARTH_RADIUS_KM * ang_dist_rad

/-- `calculate_initial_bearing` (geo_utils.py lines 150-179): forward
azimuth in degrees, normalized by `(· + 360) % 360`. -/
noncomputable def calculate_initial_bearing
    (origin_lat_deg origin_lon_deg dest_lat_deg dest_lon_deg : ℝ) : ℝ :=
  let origin_lat_rad := deg_to_rad origin_lat_deg
  let origin_lon_rad := deg_to_rad origin_lon_deg
  let dest_lat_rad := deg_to_rad dest_lat_deg
  let dest_lon_rad := deg_to_rad dest_lon_deg
  let delta_lon_rad := dest_lon_rad - origin_lon_rad
  let x := Real.cos origin_lat_rad * Real.sin dest_lat_rad
    - Real.sin origin_lat_rad * Real.cos dest_lat_rad * Real.cos delta_lon_rad
  let y := Real.sin delta_lon_rad * Real.cos dest_lat_rad
  let theta := np_arctan2 y x
  float_mod (rad_to_deg theta + 360) 360

/-- `determine_destination_coords` (geo_utils.py lines 181-216): direct
geodesic projection from an origin, distance and initial bearing. -/
noncomputable def determine_destination_coords
    (origin_lat_deg origin_lon_deg distance_km initial_bearing_deg : ℝ) : ℝ × ℝ :=
  let origin_lat_rad := deg_to_rad origin_lat_deg
  let origin_lon_rad := deg_to_rad origin_lon_deg
  let bearing_rad := deg_to_rad initial_bearing_deg
  let ang_dist_rad := distance_km / EARTH_RADIUS_KM
  let dest_lat_rad := Real.arcsin (Real.sin origin_lat_rad * Real.cos ang_dist_rad
    + Real.cos origin_lat_rad * Real.sin ang_dist_rad * Real.cos bearing_rad)
  let dest_lon_rad := origin_lon_rad
    + np_arctan2 (Real.sin bearing_rad * Real.sin ang_dist_rad * Real.cos origin_lat_rad)
        (Real.cos ang_dist_rad - Real.sin origin_lat_rad * Real.sin dest_lat_rad)
  (rad_to_deg dest_lat_rad, rad_to_deg dest_lon_rad)

end Geo

/-! ### Closed-form vertical kinematics, over exact reals.

These are the scalar formulas of `missiles_ballistic.py` and
`missiles_interceptor.py`; the `NFloat`-level missile model below
applies exactly these functions on finite values. -/

/-- The un-clamped altitude of `get_current_position`
(missiles_ballistic.py lines 131-135, missiles_interceptor.py lines
157-161): `v0 * t + 0.5 * GRAVITY_ACCEL_KM_PER_S2 * t**2`. -/
noncomputable def current_altitude_km (initial_vertical_velocity_km_sec elapsed_time_sec : ℝ) : ℝ :=
  initial_vertical_velocity_km_sec * elapsed_time_sec
    + 0.5 * GRAVITY_ACCEL_KM_PER_S2 * elapsed_time_sec ^ 2

/-- The `alt_km` value returned by `get_current_position`:
`max(current_altitude_km, 0)`. -/
noncomputable def alt_km_value (initial_vertical_velocity_km_sec elapsed_time_sec : ℝ) : ℝ :=
  max (current_altitude_km initial_vertical_velocity_km_sec elapsed_time_sec) 0

namespace BallisticMissileKinematics

/-- `BallisticMissile.compute_initial_vertical_velocity`
(missiles_ballistic.py lines 171-185): time-to-apogee (half the total
flight time) multiplied by `abs(GRAVITY_ACCEL_KM_PER_S2)`. -/
noncomputable def compute_initial_vertical_velocity (time_to_target_sec : ℝ) : ℝ :=
  (time_to_target_sec * 0.5) * |GRAVITY_ACCEL_KM_PER_S2|

end BallisticMissileKinematics

namespace TerminalInterceptorKinematics

/-- `TerminalInterceptor.compute_initial_vertical_velocity`
(missiles_interceptor.py lines 203-215): solves the integrated altitude
formula for the initial velocity that reaches `intercept_alt_km` at
`time_to_intercept_sec`. -/
noncomputable def compute_initial_vertical_velocity (intercept_alt_km time_to_intercept_sec : ℝ) : ℝ :=
  let gravity_drop := 0.5 * GRAVITY_ACCEL_KM_PER_S2 * time_to_intercept_sec ^ 2
  (intercept_alt_km - gravity_drop) / time_to_intercept_sec

end TerminalInterceptorKinematics

/-! ### numpy float64 values.

The missile classes do their scalar arithmetic on numpy float64 values
(every distance comes out of `np.arctan2`), whose division by zero does
not raise: it emits a RuntimeWarning and produces `inf`/`-inf`/`nan`.
`NFloat` models a float64 as either a finite exact real or one of the
three special values, with the IEEE-754 propagation rules of numpy for
each operation the missile code performs.  Rounding of finite values is
not modelled (finite values stay exact reals). -/

inductive NFloat where
  | fin (x : ℝ)
  | inf
  | ninf
  | nan

namespace NFloat

/-- IEEE addition: `inf + (-inf) = nan`, infinities absorb finite
values, `nan` propagates. -/
noncomputable def add : NFloat → NFloat → NFloat
  | fin a, fin b => fin (a + b)
  | fin _, inf => inf
  | inf, fin _ => inf
  | inf, inf => inf
  | fin _, ninf => ninf
  | ninf, fin _ => ninf
  | ninf, ninf => ninf
  | inf, ninf => nan
  | ninf, inf => nan
  | nan, _ => nan
  | _, nan => nan

/-- IEEE subtraction (numpy `a - b`). -/
noncomputable def sub : NFloat → NFloat → NFloat
  | fin a, fin b => fin (a - b)
  | fin _, inf => ninf
  | inf, fin _ => inf
  | inf, ninf => inf
  | fin _, ninf => inf
  | ninf, fin _ => ninf
  | ninf, inf => ninf
  | inf, inf => nan
  | ninf, ninf => nan
  | nan, _ => nan
  | _, nan => nan

/-- IEEE multiplication: `0 * inf = nan`, otherwise infinities keep the
sign of the finite factor, `nan` propagates. -/
noncomputable def mul : NFloat → NFloat → NFloat
  | fin a, fin b => fin (a * b)
  | fin a, inf => if 0 < a then inf else if a < 0 then ninf else nan
  | inf, fin b => if 0 < b then inf else if b < 0 then ninf else nan
  | fin a, ninf => if 0 < a then ninf else if a < 0 then inf else nan
  | ninf, fin b => if 0 < b then ninf else if b < 0 then inf else nan
  | inf, inf => inf
  | inf, ninf => ninf
  | ninf, inf => ninf
  | ninf, ninf => inf
  | nan, _ => nan
  | _, nan => nan

/-- numpy float64 division: `x / 0` is `inf`/`-inf`/`nan` by the sign
of `x` (a RuntimeWarning, not an exception), `x / ±inf = 0`,
`±inf / ±inf = nan`, `nan` propagates.  Signed zeros are not modelled
(the zero divisor reached by the missile code is the literal `0`). -/
noncomputable def div : NFloat → NFloat → NFloat
  | fin a, fin b =>
      if b = 0 then (if 0 < a then inf else if a < 0 then ninf else nan)
      else fin (a / b)
  | fin _, inf => fin 0
  | fin _, ninf => fin 0
  | inf, fin b => if 0 ≤ b then inf else ninf
  | ninf, fin b => if 0 ≤ b then ninf else inf
  | inf, inf => nan
  | inf, ninf => nan
  | ninf, inf => nan
  | ninf, ninf => nan
  | nan, _ => nan
  | _, nan => nan

/-- `np.sqrt`: `nan` on negative arguments (RuntimeWarning), `inf` on
`inf`. -/
noncomputable def sqrt : NFloat → NFloat
  | fin a => if a < 0 then nan else fin (Real.sqrt a)
  | inf => inf
  | ninf => nan
  | nan => nan

/-- `np.arctan`: `arctan(±inf) = ±π/2`. -/
noncomputable def arctan : NFloat → NFloat
  | fin a => fin (Real.arctan a)
  | inf => fin (π / 2)
  | ninf => fin (-(π / 2))
  | nan => nan

/-- `np.arctan2(y, x)` on float64 values: finite pairs use the exact
real `Geo.np_arctan2`; infinite arguments give the numpy limit angles;
`nan` propagates. -/
noncomputable def arctan2 : NFloat → NFloat → NFloat
  | fin y, fin x => fin (Geo.np_arctan2 y x)
  | inf, fin _ => fin (π / 2)
  | ninf, fin _ => fin (-(π / 2))
  | fin _, inf => fin 0
  | fin y, ninf => if 0 ≤ y then fin π else fin (-π)
  | inf, inf => fin (π / 4)
  | inf, ninf => fin (3 * π / 4)
  | ninf, inf => fin (-(π / 4))
  | ninf, ninf => fin (-(3 * π / 4))
  | nan, _ => nan
  | _, nan => nan

/-- Python `max(a, 0)` (`get_current_position` altitude clamping).
CPython keeps the first argument unless `0 > a`, so `max(nan, 0) = nan`
and `max(inf, 0) = inf`. -/
noncomputable def pymax0 : NFloat → NFloat
  | fin a => fin (max a 0)
  | inf => inf
  | ninf => fin 0
  | nan => nan

/-- `rad_to_deg` applied to a float64 value: `radians * 180 / np.pi`. -/
noncomputable def rad_to_deg (radians : NFloat) : NFloat :=
  (radians.mul (fin 180)).div (fin π)

/-- `convert_trig_to_compass_angle` (radian mode, the way the missile
classes call it) on a float64 value: Python `x % (2π)` of a non-finite
float is `nan`. -/
noncomputable def convert_trig_to_compass_angle : NFloat → NFloat
  | fin a => fin (Geo.convert_trig_to_compass_angle a true)
  | inf => nan
  | ninf => nan
  | nan => nan

end NFloat

/-! ### Geodetic functions lifted to float64 values.

The trigonometry of `geo_utils.py` maps every non-finite input to `nan`
outputs (`np.sin(inf) = np.cos(inf) = nan` propagates through each
formula), so the lifts below return the exact-real result on finite
inputs and `nan` otherwise.  Origin coordinates that the missile code
always supplies as finite user input stay plain reals. -/

namespace Geo

/-- `calculate_great_circle_distance` on float64 coordinates. -/
noncomputable def calculate_great_circle_distance_nf :
    NFloat → NFloat → NFloat → NFloat → NFloat
  | .fin a, .fin b, .fin c, .fin d => .fin (calculate_great_circle_distance a b c d)
  | _, _, _, _ => .nan

/-- `calculate_initial_bearing` on float64 coordinates. -/
noncomputable def calculate_initial_bearing_nf :
    NFloat → NFloat → NFloat → NFloat → NFloat
  | .fin a, .fin b, .fin c, .fin d => .fin (calculate_initial_bearing a b c d)
  | _, _, _, _ => .nan

/-- `determine_destination_coords` with a finite (user-supplied) origin
and float64 distance and bearing. -/
noncomputable def determine_destination_coords_nf
    (origin_lat_deg origin_lon_deg : ℝ) : NFloat → NFloat → NFloat × NFloat
  | .fin dist, .fin bearing =>
      let p := determine_destination_coords origin_lat_deg origin_lon_deg dist bearing
      (.fin p.1, .fin p.2)
  | _, _ => (.nan, .nan)

end Geo

/-! ### Python failure modes surfaced by the missile classes. -/

/-- The unhandled Python exceptions the missile code can raise:
subscripting `None` (`TypeError`), the explicit `raise ValueError` of
`get_intercept_time_and_position`, and a missing dict key
(`KeyError`). -/
inductive PyError where
  | typeError (msg : String)
  | valueError (msg : String)
  | keyError (msg : String)

/-- The message text carried by a `PyError`. -/
def PyError.msg : PyError → String
  | .typeError m => m
  | .valueError m => m
  | .keyError m => m

/-- The `TypeError` raised by Python when code subscripts an attribute
that is still `None` (e.g. `self.build_data[...]` before `build`, or
`self.LP_latlon_deg[0]` before the launchpoint is set). -/
def noneSubscript : PyError := .typeError "NoneType object is not subscriptable"

/-! ### Data model (missiles_abstract.py, missiles_ballistic.py,
missiles_interceptor.py).

`datetime` launch epochs are modelled as float64 seconds; `timedelta`
arithmetic on them becomes `NFloat` addition/subtraction. -/

/-- The user-supplied `params` dict.  `LP_latlon_deg`, `AP_latlon_deg`
and `launch_time` are optional keys read with `.get(..., None)` or
subscripting; the numeric parameters are finite user input. -/
structure Params where
  LP_latlon_deg : Option (ℝ × ℝ)
  AP_latlon_deg : Option (ℝ × ℝ)
  horizontal_velocity_km_sec : ℝ
  timestep_sec : ℝ
  launch_time : Option NFloat
  intercept_distance_from_target_km : ℝ

/-- The dict returned by `get_current_position`. -/
structure Position where
  lat_deg : NFloat
  lon_deg : NFloat
  alt_km : NFloat

/-- The dict returned by `get_current_orientation`. -/
structure Orientation where
  bearing_deg : NFloat
  tilt_deg : NFloat
  roll_deg : NFloat

/-- `BallisticMissile.build_data` (missiles_ballistic.py lines 82-90). -/
structure BallisticBuildData where
  launchpoint_dist_to_target_km : NFloat
  launchpoint_bearing_deg : NFloat
  total_time_to_target_sec : NFloat
  horizontal_velocity_km_sec : NFloat
  initial_vertical_velocity_km_sec : NFloat
  initial_launch_velocity_km_sec : NFloat
  initial_launch_angle_deg : NFloat

/-- `TerminalInterceptor.build_data` (missiles_interceptor.py lines
106-115). -/
structure InterceptorBuildData where
  launchpoint_ground_dist_to_intercept_km : NFloat
  launchpoint_dist_to_intercept_km : NFloat
  launchpoint_bearing_deg : NFloat
  interceptor_time_to_intercept_sec : NFloat
  horizontal_velocity_km_sec : NFloat
  initial_vertical_velocity_km_sec : NFloat
  initial_launch_velocity_km_sec : NFloat
  initial_launch_angle_deg : NFloat

/-- A trajectory record: the OrderedDict mapping elapsed time to the
merged position/orientation dicts, kept as an insertion-ordered
association list. -/
abbrev Trajectory : Type := List (ℝ × Position × Orientation)

/-- The state of a `BallisticMissile` object (missiles_abstract.py
`__init__` plus the fields assigned by its methods). -/
structure BallisticMissile where
  params : Params
  LP_latlon_deg : Option (ℝ × ℝ)
  AP_latlon_deg : Option (ℝ × ℝ)
  build_data : Option BallisticBuildData
  trajectory_data : Option Trajectory

/-- The state of a `TerminalInterceptor` object
(missiles_interceptor.py `__init__` plus the fields assigned by its
methods).  Its aimpoint is derived from the targeted missile's
position, hence a float64 pair. -/
structure TerminalInterceptor where
  params : Params
  LP_latlon_deg : Option (ℝ × ℝ)
  AP_latlon_deg : Option (NFloat × NFloat)
  build_data : Option InterceptorBuildData
  trajectory_data : Option Trajectory
  targeted_missile : Option BallisticMissile
  intercept_position : Option Position
  intercept_time_sec : Option NFloat

namespace Missile

/-! ### Shared `Missile` operations (missiles_abstract.py). -/

/-- `Missile.compute_distance_to_target(position_latlon_deg)`: great-
circle distance from a position to `self.AP_latlon_deg`.  Subscripting
a `None` position or aimpoint raises `TypeError`. -/
noncomputable def compute_distance_to_target
    (AP_latlon_deg position_latlon_deg : Option (ℝ × ℝ)) : Except PyError ℝ :=
  match position_latlon_deg, AP_latlon_deg with
  | none, _ => .error noneSubscript
  | some _, none => .error noneSubscript
  | some p, some ap => .ok (Geo.calculate_great_circle_distance p.1 p.2 ap.1 ap.2)

/-- `Missile.compute_bearing(position_latlon_deg)`: initial bearing
from a position to `self.AP_latlon_deg`. -/
noncomputable def compute_bearing
    (AP_latlon_deg position_latlon_deg : Option (ℝ × ℝ)) : Except PyError ℝ :=
  match position_latlon_deg, AP_latlon_deg with
  | none, _ => .error noneSubscript
  | some _, none => .error noneSubscript
  | some p, some ap => .ok (Geo.calculate_initial_bearing p.1 p.2 ap.1 ap.2)

/-- `compute_distance_to_target` for the interceptor, whose aimpoint is
a derived float64 pair. -/
noncomputable def compute_distance_to_target_nf
    (AP_latlon_deg : Option (NFloat × NFloat)) (position_latlon_deg : Option (ℝ × ℝ)) :
    Except PyError NFloat :=
  match position_latlon_deg, AP_latlon_deg with
  | none, _ => .error noneSubscript
  | some _, none => .error noneSubscript
  | some p, some ap =>
      .ok (Geo.calculate_great_circle_distance_nf (.fin p.1) (.fin p.2) ap.1 ap.2)

/-- `compute_bearing` for the interceptor (float64 aimpoint). -/
noncomputable def compute_bearing_nf
    (AP_latlon_deg : Option (NFloat × NFloat)) (position_latlon_deg : Option (ℝ × ℝ)) :
    Except PyError NFloat :=
  match position_latlon_deg, AP_latlon_deg with
  | none, _ => .error noneSubscript
  | some _, none => .error noneSubscript
  | some p, some ap =>
      .ok (Geo.calculate_initial_bearing_nf (.fin p.1) (.fin p.2) ap.1 ap.2)

/-- `Missile.compute_velocity`: `np.sqrt(h**2 + v**2)`. -/
noncomputable def compute_velocity (horizontal vertical : NFloat) : NFloat :=
  ((horizontal.mul horizontal).add (vertical.mul vertical)).sqrt

/-- `Missile.compute_altitude_angle`: `rad_to_deg(np.arctan(v / h))`. -/
noncomputable def compute_altitude_angle (horizontal vertical : NFloat) : NFloat :=
  NFloat.rad_to_deg (vertical.div horizontal).arctan

end Missile

/-! ### Trajectory sampling grid (missiles_ballistic.py lines 100-111,
missiles_interceptor.py lines 126-137). -/

/-- Python `round(x, 3)` rounds half to even.  `round_half_even x` is
the integer Python's `round(x)` returns for a real `x`. -/
noncomputable def round_half_even (x : ℝ) : ℤ :=
  let n := ⌊x⌋
  let f := x - n
  if f < 1 / 2 then n
  else if 1 / 2 < f then n + 1
  else if Even n then n else n + 1

/-- Python `round(x, 3)`: round half to even at the third decimal. -/
noncomputable def python_round3 (x : ℝ) : ℝ := (round_half_even (x * 1000) : ℝ) / 1000

/-- `np.arange(0, stop, step)`: the `⌈stop / step⌉` values
`0, step, 2·step, ...` (exact-real arithmetic; the float grid is
modelled without rounding error). -/
noncomputable def np_arange (stop step : ℝ) : List ℝ :=
  (List.range (⌈stop / step⌉.toNat)).map (fun k : ℕ => (k : ℝ) * step)

/-- `traj_dict[k] = v` on the OrderedDict: replace in place if the key
exists (keeping its original position), else append. -/
noncomputable def insert_entry (entries : Trajectory) (k : ℝ) (v : Position × Orientation) :
    Trajectory :=
  if k ∈ entries.map Prod.fst then
    entries.map (fun e => if e.1 = k then (k, v.1, v.2) else e)
  else entries ++ [(k, v.1, v.2)]

/-- The elapsed-time keys of the trajectory OrderedDict produced by
`launch(stoptime_sec)`: the `np.arange(0, stoptime_sec, timestep_sec)`
grid followed by the final `traj_dict[round(stoptime_sec, 3)]`
assignment (which replaces in place when the rounded key already
exists). -/
noncomputable def launch_keys (stoptime_sec timestep_sec : ℝ) : List ℝ :=
  let ks := np_arange stoptime_sec timestep_sec
  if python_round3 stoptime_sec ∈ ks then ks else ks ++ [python_round3 stoptime_sec]

namespace BallisticMissile

/-! ### `BallisticMissile` methods (missiles_ballistic.py). -/

/-- `compute_initial_vertical_velocity` on a float64 flight time:
`(time_to_target_sec * 0.5) * abs(GRAVITY_ACCEL_KM_PER_S2)`. -/
noncomputable def compute_initial_vertical_velocity_nf (time_to_target_sec : NFloat) : NFloat :=
  (time_to_target_sec.mul (.fin 0.5)).mul (.fin |GRAVITY_ACCEL_KM_PER_S2|)

/-- `BallisticMissile.build` (lines 57-90).  There is no input
validation: the only failure modes are subscripting an unset
launchpoint/aimpoint; the division by `horizontal_velocity_km_sec` is a
float64 division. -/
noncomputable def build (m : BallisticMissile) : Except PyError BallisticMissile := do
  let dist_to_target_km ← Missile.compute_distance_to_target m.AP_latlon_deg m.LP_latlon_deg
  let time_to_target_sec :=
    (NFloat.fin dist_to_target_km).div (.fin m.params.horizontal_velocity_km_sec)
  let initial_vertical_velocity_km_sec := compute_initial_vertical_velocity_nf time_to_target_sec
  let initial_launch_velocity_km_sec :=
    Missile.compute_velocity (.fin m.params.horizontal_velocity_km_sec)
      initial_vertical_velocity_km_sec
  let initial_launch_angle_deg :=
    Missile.compute_altitude_angle (.fin m.params.horizontal_velocity_km_sec)
      initial_vertical_velocity_km_sec
  let launchpoint_bearing_deg ← Missile.compute_bearing m.AP_latlon_deg m.LP_latlon_deg
  pure { m with build_data := some {
    launchpoint_dist_to_target_km := .fin dist_to_target_km
    launchpoint_bearing_deg := .fin launchpoint_bearing_deg
    total_time_to_target_sec := time_to_target_sec
    horizontal_velocity_km_sec := .fin m.params.horizontal_velocity_km_sec
    initial_vertical_velocity_km_sec := initial_vertical_velocity_km_sec
    initial_launch_velocity_km_sec := initial_launch_velocity_km_sec
    initial_launch_angle_deg := initial_launch_angle_deg } }

/-- `BallisticMissile.get_current_position` (lines 114-140): reads
`self.build_data` (TypeError when still `None`), projects the
launchpoint along the launch bearing, and clamps the closed-form
altitude with `max(..., 0)`. -/
noncomputable def get_current_position (m : BallisticMissile) (elapsed_time_sec : NFloat) :
    Except PyError Position :=
  match m.build_data with
  | none => .error noneSubscript
  | some bd =>
    match m.LP_latlon_deg with
    | none => .error noneSubscript
    | some lp =>
      let dist_km := bd.horizontal_velocity_km_sec.mul elapsed_time_sec
      let latlon := Geo.determine_destination_coords_nf lp.1 lp.2 dist_km
        bd.launchpoint_bearing_deg
      let alt := (bd.initial_vertical_velocity_km_sec.mul elapsed_time_sec).add
        (((NFloat.fin 0.5).mul (.fin GRAVITY_ACCEL_KM_PER_S2)).mul
          (elapsed_time_sec.mul elapsed_time_sec))
      .ok { lat_deg := latlon.1, lon_deg := latlon.2, alt_km := alt.pymax0 }

/-- `compute_current_vertical_velocity` (lines 187-200). -/
noncomputable def compute_current_vertical_velocity (bd : BallisticBuildData)
    (elapsed_time_sec : NFloat) : NFloat :=
  let change_in_velocity := (NFloat.fin GRAVITY_ACCEL_KM_PER_S2).mul elapsed_time_sec
  bd.initial_vertical_velocity_km_sec.add change_in_velocity

/-- `BallisticMissile.get_current_orientation` (lines 142-169). -/
noncomputable def get_current_orientation (m : BallisticMissile) (elapsed_time_sec : NFloat) :
    Except PyError Orientation :=
  match m.get_current_position elapsed_time_sec with
  | .error e => .error e
  | .ok pos =>
    match m.AP_latlon_deg with
    | none => .error noneSubscript
    | some ap =>
      match m.build_data with
      | none => .error noneSubscript
      | some bd =>
        let current_bearing_deg := Geo.calculate_initial_bearing_nf pos.lat_deg pos.lon_deg
          (.fin ap.1) (.fin ap.2)
        let current_tilt_deg := NFloat.rad_to_deg (NFloat.convert_trig_to_compass_angle
          (NFloat.arctan2 (compute_current_vertical_velocity bd elapsed_time_sec)
            bd.horizontal_velocity_km_sec))
        .ok { bearing_deg := current_bearing_deg, tilt_deg := current_tilt_deg,
              roll_deg := .fin 0 }

/-- `BallisticMissile.launch(stoptime_sec)` (lines 92-112): defaulting
the stop time reads `self.build_data` (TypeError when unbuilt), the
timestep grid is sampled, and the final sample is stored under
`round(stoptime_sec, 3)`.  A non-finite stop (for which `np.arange`
has no defined length) is not reached by any claim and surfaces as an
error. -/
noncomputable def launch (m : BallisticMissile) (stoptime_sec_arg : Option NFloat) :
    Except PyError BallisticMissile := do
  let stoptime_sec ← match stoptime_sec_arg with
    | none =>
      match m.build_data with
      | none => Except.error noneSubscript
      | some bd => Except.ok bd.total_time_to_target_sec
    | some s => Except.ok s
  match stoptime_sec with
  | .fin s =>
    let entries ← (np_arange s m.params.timestep_sec).mapM (fun t => do
      let pos ← m.get_current_position (.fin t)
      let ori ← m.get_current_orientation (.fin t)
      pure ((t, pos, ori) : ℝ × Position × Orientation))
    let final_pos ← m.get_current_position (.fin s)
    let final_ori ← m.get_current_orientation (.fin s)
    pure { m with trajectory_data := some (insert_entry entries (python_round3 s)
      (final_pos, final_ori)) }
  | _ => Except.error (.valueError "cannot convert non-finite arange length")

end BallisticMissile

namespace TerminalInterceptor

/-! ### `TerminalInterceptor` methods (missiles_interceptor.py). -/

/-- `set_intercept_target` (lines 52-54). -/
def set_intercept_target (i : TerminalInterceptor) (targeted_missile : BallisticMissile) :
    TerminalInterceptor :=
  { i with targeted_missile := some targeted_missile }

/-- `get_intercept_time_and_position` (lines 56-71): the only validation
is the explicit `raise ValueError` when no target is set; the derived
intercept time is stored whatever its sign. -/
noncomputable def get_intercept_time_and_position (i : TerminalInterceptor) :
    Except PyError TerminalInterceptor :=
  match i.targeted_missile with
  | none => .error (.valueError "Attribute targeted_missile must be set (currently None).")
  | some tm =>
    match tm.build_data with
    | none => .error noneSubscript
    | some bd =>
      let intercept_dist_from_missile_LP_km :=
        bd.launchpoint_dist_to_target_km.sub (.fin i.params.intercept_distance_from_target_km)
      let intercept_time_sec :=
        intercept_dist_from_missile_LP_km.div bd.horizontal_velocity_km_sec
      match tm.get_current_position intercept_time_sec with
      | .error e => .error e
      | .ok pos =>
          .ok { i with intercept_time_sec := some intercept_time_sec,
                       intercept_position := some pos }

/-- `compute_initial_vertical_velocity` on float64 values (lines
203-215): `(alt_km - 0.5 * g * t**2) / t`. -/
noncomputable def compute_initial_vertical_velocity_nf
    (intercept_alt_km time_to_intercept_sec : NFloat) : NFloat :=
  let gravity_drop := ((NFloat.fin 0.5).mul (.fin GRAVITY_ACCEL_KM_PER_S2)).mul
    (time_to_intercept_sec.mul time_to_intercept_sec)
  (intercept_alt_km.sub gravity_drop).div time_to_intercept_sec

/-- `get_interceptor_launch_time` (lines 193-201): the targeted
missile's launch epoch plus the intercept time minus the interceptor's
own time to intercept (epochs as float64 seconds). -/
noncomputable def get_interceptor_launch_time (tm_launch_time : Option NFloat)
    (intercept_time_sec interceptor_time_to_intercept_sec : NFloat) : Except PyError NFloat :=
  match tm_launch_time with
  | none => .error (.keyError "launch_time")
  | some t0 => .ok ((t0.add intercept_time_sec).sub interceptor_time_to_intercept_sec)

/-- `TerminalInterceptor.build` (lines 73-116): derives the aimpoint
and static data from the intercept solution, then assigns
`self.params["launch_time"]` — a write into the caller-supplied params
dict.  No geometric validation is performed. -/
noncomputable def build (i : TerminalInterceptor) : Except PyError TerminalInterceptor := do
  let i1 ← i.get_intercept_time_and_position
  match i1.intercept_position, i1.intercept_time_sec, i1.targeted_missile with
  | some pos, some intercept_time_sec, some tm =>
    let i2 := { i1 with AP_latlon_deg := some (pos.lat_deg, pos.lon_deg) }
    let ground_dist_to_intercept_km ←
      Missile.compute_distance_to_target_nf i2.AP_latlon_deg i2.LP_latlon_deg
    let dist_to_intercept_km :=
      ((ground_dist_to_intercept_km.mul ground_dist_to_intercept_km).add
        (pos.alt_km.mul pos.alt_km)).sqrt
    let interceptor_time_to_intercept_sec :=
      ground_dist_to_intercept_km.div (.fin i.params.horizontal_velocity_km_sec)
    let initial_vertical_velocity_km_sec :=
      compute_initial_vertical_velocity_nf pos.alt_km interceptor_time_to_intercept_sec
    let initial_launch_velocity_km_sec :=
      Missile.compute_velocity (.fin i.params.horizontal_velocity_km_sec)
        initial_vertical_velocity_km_sec
    let initial_launch_angle_deg :=
      Missile.compute_altitude_angle (.fin i.params.horizontal_velocity_km_sec)
        initial_vertical_velocity_km_sec
    let launchpoint_bearing_deg ← Missile.compute_bearing_nf i2.AP_latlon_deg i2.LP_latlon_deg
    let launch_time ← get_interceptor_launch_time tm.params.launch_time intercept_time_sec
      interceptor_time_to_intercept_sec
    pure { i2 with
      build_data := some {
        launchpoint_ground_dist_to_intercept_km := ground_dist_to_intercept_km
        launchpoint_dist_to_intercept_km := dist_to_intercept_km
        launchpoint_bearing_deg := launchpoint_bearing_deg
        interceptor_time_to_intercept_sec := interceptor_time_to_intercept_sec
        horizontal_velocity_km_sec := .fin i.params.horizontal_velocity_km_sec
        initial_vertical_velocity_km_sec := initial_vertical_velocity_km_sec
        initial_launch_velocity_km_sec := initial_launch_velocity_km_sec
        initial_launch_angle_deg := initial_launch_angle_deg }
      params := { i2.params with launch_time := some launch_time } }
  | _, _, _ => .error noneSubscript

/-- `TerminalInterceptor.get_current_position` (lines 140-166):
identical formula to the ballistic one, reading the interceptor's
`build_data`. -/
noncomputable def get_current_position (i : TerminalInterceptor) (elapsed_time_sec : NFloat) :
    Except PyError Position :=
  match i.build_data with
  | none => .error noneSubscript
  | some bd =>
    match i.LP_latlon_deg with
    | none => .error noneSubscript
    | some lp =>
      let dist_km := bd.horizontal_velocity_km_sec.mul elapsed_time_sec
      let latlon := Geo.determine_destination_coords_nf lp.1 lp.2 dist_km
        bd.launchpoint_bearing_deg
      let alt := (bd.initial_vertical_velocity_km_sec.mul elapsed_time_sec).add
        (((NFloat.fin 0.5).mul (.fin GRAVITY_ACCEL_KM_PER_S2)).mul
          (elapsed_time_sec.mul elapsed_time_sec))
      .ok { lat_deg := latlon.1, lon_deg := latlon.2, alt_km := alt.pymax0 }

end TerminalInterceptor

/-! ### Concrete object states used to instantiate the theorems.

`target0` is a built ballistic missile whose static data matches
`build`'s formulas for a 100 km flight at 1 km/s; `interceptor0`
targets it with an intercept distance larger than the target's whole
ground track and with no `launch_time` key in its params dict. -/

/-- A built targeted missile: 100 km to target at 1 km/s. -/
noncomputable def target0 : BallisticMissile := {
  params := {
    LP_latlon_deg := some (0, 0)
    AP_latlon_deg := some (0, 1)
    horizontal_velocity_km_sec := 1
    timestep_sec := 1
    launch_time := some (.fin 0)
    intercept_distance_from_target_km := 0 }
  LP_latlon_deg := some (0, 0)
  AP_latlon_deg := some (0, 1)
  build_data := some {
    launchpoint_dist_to_target_km := .fin 100
    launchpoint_bearing_deg := .fin 90
    total_time_to_target_sec := .fin 100
    horizontal_velocity_km_sec := .fin 1
    initial_vertical_velocity_km_sec := .fin (49 / 100)
    initial_launch_velocity_km_sec := .fin 1
    initial_launch_angle_deg := .fin 26 }
  trajectory_data := none }

/-- An interceptor aimed at `target0` whose requested intercept point
lies 200 km before the target's aimpoint — beyond the target's entire
100 km ground track — and whose params dict has no `launch_time` key. -/
noncomputable def interceptor0 : TerminalInterceptor := {
  params := {
    LP_latlon_deg := some (1, 1)
    AP_latlon_deg := none
    horizontal_velocity_km_sec := 1
    timestep_sec := 1
    launch_time := none
    intercept_distance_from_target_km := 200 }
  LP_latlon_deg := some (1, 1)
  AP_latlon_deg := none
  build_data := none
  trajectory_data := none
  targeted_missile := some target0
  intercept_position := none
  intercept_time_sec := none }

/-- A built interceptor state for evaluating `get_current_position`:
time to intercept 2 s, intercept altitude 1 km, and the initial
vertical velocity that `compute_initial_vertical_velocity` derives for
them. -/
noncomputable def interceptor1 : TerminalInterceptor := {
  params := {
    LP_latlon_deg := some (0, 0)
    AP_latlon_deg := none
    horizontal_velocity_km_sec := 1
    timestep_sec := 1
    launch_time := some (.fin 0)
    intercept_distance_from_target_km := 2 }
  LP_latlon_deg := some (0, 0)
  AP_latlon_deg := some (.fin 0, .fin 1)
  build_data := some {
    launchpoint_ground_dist_to_intercept_km := .fin 2
    launchpoint_dist_to_intercept_km := .fin 2
    launchpoint_bearing_deg := .fin 90
    interceptor_time_to_intercept_sec := .fin 2
    horizontal_velocity_km_sec := .fin 1
    initial_vertical_velocity_km_sec :=
      .fin (TerminalInterceptorKinematics.compute_initial_vertical_velocity 1 2)
    initial_launch_velocity_km_sec := .fin 1
    initial_launch_angle_deg := .fin 27 }
  trajectory_data := none
  targeted_missile := none
  intercept_position := some { lat_deg := .fin 0, lon_deg := .fin 1, alt_km := .fin 1 }
  intercept_time_sec := some (.fin 3) }

/-- A built ballistic missile state with a 10 s flight (10 km at
1 km/s) and the initial vertical velocity `build` derives for it. -/
noncomputable def ballistic1 : BallisticMissile := {
  params := {
    LP_latlon_deg := some (0, 0)
    AP_latlon_deg := some (0, 1)
    horizontal_velocity_km_sec := 1
    timestep_sec := 1
    launch_time := some (.fin 0)
    intercept_distance_from_target_km := 0 }
  LP_latlon_deg := some (0, 0)
  AP_latlon_deg := some (0, 1)
  build_data := some {
    launchpoint_dist_to_target_km := .fin 10
    launchpoint_bearing_deg := .fin 90
    total_time_to_target_sec := .fin 10
    horizontal_velocity_km_sec := .fin 1
    initial_vertical_velocity_km_sec :=
      .fin (BallisticMissileKinematics.compute_initial_vertical_velocity 10)
    initial_launch_velocity_km_sec := .fin 1
    initial_launch_angle_deg := .fin 3 }
  trajectory_data := none }

/-- A ballistic missile on which `build` has not been called. -/
noncomputable def ballisticUnbuilt : BallisticMissile := {
  params := {
    LP_latlon_deg := some (0, 0)
    AP_latlon_deg := some (0, 1)
    horizontal_velocity_km_sec := 1
    timestep_sec := 1
    launch_time := some (.fin 0)
    intercept_distance_from_target_km := 0 }
  LP_latlon_deg := some (0, 0)
  AP_latlon_deg := some (0, 1)
  build_data := none
  trajectory_data := none }

/-- A ballistic missile whose params supply
`horizontal_velocity_km_sec = 0` and identical launch and aim points. -/
noncomputable def ballisticZeroVelocity : BallisticMissile := {
  params := {
    LP_latlon_deg := some (0, 0)
    AP_latlon_deg := some (0, 0)
    horizontal_velocity_km_sec := 0
    timestep_sec := 1
    launch_time := some (.fin 0)
    intercept_distance_from_target_km := 0 }
  LP_latlon_deg := some (0, 0)
  AP_latlon_deg := some (0, 0)
  build_data := none
  trajectory_data := none }

/-! ## Lemmas and claim theorems -/

namespace NFloat

@[simp] lemma mul_fin (a b : ℝ) : mul (fin a) (fin b) = fin (a * b) := rfl

@[simp] lemma add_fin (a b : ℝ) : add (fin a) (fin b) = fin (a + b) := rfl

@[simp] lemma sub_fin (a b : ℝ) : sub (fin a) (fin b) = fin (a - b) := rfl

@[simp] lemma pymax0_fin (a : ℝ) : pymax0 (fin a) = fin (max a 0) := rfl

lemma div_fin_of_ne (a b : ℝ) (hb : b ≠ 0) : div (fin a) (fin b) = fin (a / b) := by
  simp [div, hb]

lemma div_fin_zero_pos (a : ℝ) (ha : 0 < a) : div (fin a) (fin 0) = inf := by
  simp [div, ha]

lemma div_fin_zero_zero : div (fin 0) (fin 0) = nan := by
  simp [div]

lemma fin_ne_of_nonfin (a : ℝ) : ∀ x : NFloat, x = inf ∨ x = ninf ∨ x = nan → x ≠ fin a := by
  intro x h
  rcases h with h | h | h <;> subst h <;> intro hx <;> cases hx

end NFloat

/-- The float64 altitude expression of `get_current_position` on
finite inputs is the exact closed-form altitude. -/
lemma altitude_channel_fin (v0 t : ℝ) :
    (((NFloat.fin v0).mul (.fin t)).add
      (((NFloat.fin 0.5).mul (.fin GRAVITY_ACCEL_KM_PER_S2)).mul
        ((NFloat.fin t).mul (.fin t)))).pymax0 = .fin (alt_km_value v0 t) := by
  have h : v0 * t + 0.5 * GRAVITY_ACCEL_KM_PER_S2 * (t * t) = current_altitude_km v0 t := by
    unfold current_altitude_km; ring
  simp [alt_km_value, ← h]

/-- `TerminalInterceptor.get_current_position` on a built interceptor
with finite static data returns the clamped closed-form altitude. -/
lemma interceptor_get_current_position_built (i : TerminalInterceptor)
    (bd : InterceptorBuildData) (lp : ℝ × ℝ) (v0 t : ℝ)
    (hbd : i.build_data = some bd) (hlp : i.LP_latlon_deg = some lp)
    (hv0 : bd.initial_vertical_velocity_km_sec = .fin v0) :
    ∃ plat plon, i.get_current_position (.fin t) =
      .ok ⟨plat, plon, .fin (alt_km_value v0 t)⟩ := by
  simp only [TerminalInterceptor.get_current_position, hbd, hlp, hv0, altitude_channel_fin]
  exact ⟨_, _, rfl⟩

/-- `BallisticMissile.get_current_position` on a built missile with
finite static data returns the clamped closed-form altitude. -/
lemma ballistic_get_current_position_built (m : BallisticMissile)
    (bd : BallisticBuildData) (lp : ℝ × ℝ) (v0 t : ℝ)
    (hbd : m.build_data = some bd) (hlp : m.LP_latlon_deg = some lp)
    (hv0 : bd.initial_vertical_velocity_km_sec = .fin v0) :
    ∃ plat plon, m.get_current_position (.fin t) =
      .ok ⟨plat, plon, .fin (alt_km_value v0 t)⟩ := by
  simp only [BallisticMissile.get_current_position, hbd, hlp, hv0, altitude_channel_fin]
  exact ⟨_, _, rfl⟩

/-- Exactness of the inverted altitude formula: the initial vertical
velocity solved from the intercept altitude and time reproduces that
altitude exactly. -/
lemma interceptor_altitude_exact (alt t : ℝ) (ht : t ≠ 0) (halt : 0 ≤ alt) :
    alt_km_value (TerminalInterceptorKinematics.compute_initial_vertical_velocity alt t) t
      = alt := by
  have hraw : current_altitude_km
      (TerminalInterceptorKinematics.compute_initial_vertical_velocity alt t) t = alt := by
    unfold current_altitude_km TerminalInterceptorKinematics.compute_initial_vertical_velocity
    field_simp
  unfold alt_km_value
  rw [hraw]
  exact max_eq_left halt

/-- C1: for every built TerminalInterceptor with a positive
time-to-intercept `t` and a non-negative intercept altitude `alt`,
whose stored initial vertical velocity is the one
`compute_initial_vertical_velocity` derives from them
(`(alt − 0.5·g·t²)/t`), the altitude that `get_current_position`
returns at elapsed time exactly `t` is exactly `alt`. -/
theorem C1_interceptor_hits_intercept_altitude (alt t : ℝ) (ht : 0 < t) (halt : 0 ≤ alt)
    (i : TerminalInterceptor) (bd : InterceptorBuildData) (lp : ℝ × ℝ)
    (hbd : i.build_data = some bd) (hlp : i.LP_latlon_deg = some lp)
    (hv0 : bd.initial_vertical_velocity_km_sec =
      .fin (TerminalInterceptorKinematics.compute_initial_vertical_velocity alt t)) :
    ∃ pos : Position, i.get_current_position (.fin t) = .ok pos ∧ pos.alt_km = .fin alt := by
  obtain ⟨plat, plon, hpos⟩ :=
    interceptor_get_current_position_built i bd lp _ t hbd hlp hv0
  rw [interceptor_altitude_exact alt t (ne_of_gt ht) halt] at hpos
  exact ⟨_, hpos, rfl⟩

/-- The gravity constant written out. -/
lemma gravity_val : GRAVITY_ACCEL_KM_PER_S2 = (-0.0098 : ℝ) := rfl

/-- `abs(GRAVITY_ACCEL_KM_PER_S2)` as used by the ballistic
`compute_initial_vertical_velocity`. -/
lemma abs_gravity : |GRAVITY_ACCEL_KM_PER_S2| = (0.0098 : ℝ) := by
  rw [gravity_val, abs_of_neg (by norm_num : (-0.0098 : ℝ) < 0)]
  norm_num

/-- The symmetric-arc initial vertical velocity written out. -/
lemma ballistic_v0_val (T : ℝ) :
    BallisticMissileKinematics.compute_initial_vertical_velocity T = 0.0049 * T := by
  unfold BallisticMissileKinematics.compute_initial_vertical_velocity
  rw [abs_gravity]
  ring

/-- The closed-form altitude of the symmetric arc lands at exactly zero
at the full flight time. -/
lemma ballistic_alt_at_T (T : ℝ) :
    alt_km_value (BallisticMissileKinematics.compute_initial_vertical_velocity T) T = 0 := by
  have hraw : current_altitude_km
      (BallisticMissileKinematics.compute_initial_vertical_velocity T) T = 0 := by
    unfold current_altitude_km
    rw [ballistic_v0_val, gravity_val]
    ring
  unfold alt_km_value
  rw [hraw]
  exact max_self 0

/-- The closed-form altitude of the symmetric arc at the midpoint is
non-negative, so clamping does not change it. -/
lemma ballistic_alt_at_half (T : ℝ) :
    alt_km_value (BallisticMissileKinematics.compute_initial_vertical_velocity T) (T / 2)
      = current_altitude_km
        (BallisticMissileKinematics.compute_initial_vertical_velocity T) (T / 2) := by
  unfold alt_km_value
  apply max_eq_left
  have h : current_altitude_km
      (BallisticMissileKinematics.compute_initial_vertical_velocity T) (T / 2)
      = 0.001225 * T ^ 2 := by
    unfold current_altitude_km
    rw [ballistic_v0_val, gravity_val]
    ring
  rw [h]
  positivity

/-- The midpoint is the maximum of the symmetric arc. -/
lemma ballistic_alt_le_half (T t : ℝ) :
    alt_km_value (BallisticMissileKinematics.compute_initial_vertical_velocity T) t
      ≤ alt_km_value (BallisticMissileKinematics.compute_initial_vertical_velocity T) (T / 2) := by
  unfold alt_km_value
  refine max_le_max ?_ le_rfl
  unfold current_altitude_km
  rw [ballistic_v0_val, gravity_val]
  nlinarith [sq_nonneg (t - T / 2)]

/-- Witness for C1 at `t = 2`, `alt = 1` on the concrete built
interceptor `interceptor1`. -/
theorem C1_witness :
    (0:ℝ) < 2 ∧ (0:ℝ) ≤ 1 ∧
      ∃ pos : Position, interceptor1.get_current_position (.fin 2) = .ok pos ∧
        pos.alt_km = .fin 1 :=
  ⟨by norm_num, by norm_num,
    C1_interceptor_hits_intercept_altitude 1 2 (by norm_num) (by norm_num)
      interceptor1 _ (0, 0) rfl rfl rfl⟩

/-- C2: for every built BallisticMissile whose stored initial vertical
velocity is the symmetric-arc one `(T/2)·|g|` for its total flight time
`T ≥ 0`, `get_current_position` reports the clamped closed-form
altitude, which is never negative, is exactly `0` at `t = 0` and at
`t = T`, equals the apogee `(T/2)·v0 + 0.5·g·(T/2)²` at `t = T/2`, and
is maximal there over all `t ∈ [0, T]`. -/
theorem C2_ballistic_altitude_profile (T : ℝ) (hT : 0 ≤ T)
    (m : BallisticMissile) (bd : BallisticBuildData) (lp : ℝ × ℝ)
    (hbd : m.build_data = some bd) (hlp : m.LP_latlon_deg = some lp)
    (hv0 : bd.initial_vertical_velocity_km_sec =
      .fin (BallisticMissileKinematics.compute_initial_vertical_velocity T)) :
    (∀ t : ℝ, ∃ pos : Position, m.get_current_position (.fin t) = .ok pos ∧
      pos.alt_km = .fin (alt_km_value
        (BallisticMissileKinematics.compute_initial_vertical_velocity T) t)) ∧
    (∀ t : ℝ, 0 ≤ t →
      0 ≤ alt_km_value (BallisticMissileKinematics.compute_initial_vertical_velocity T) t) ∧
    alt_km_value (BallisticMissileKinematics.compute_initial_vertical_velocity T) 0 = 0 ∧
    alt_km_value (BallisticMissileKinematics.compute_initial_vertical_velocity T) T = 0 ∧
    alt_km_value (BallisticMissileKinematics.compute_initial_vertical_velocity T) (T / 2)
      = (T / 2) * BallisticMissileKinematics.compute_initial_vertical_velocity T
        + 0.5 * GRAVITY_ACCEL_KM_PER_S2 * (T / 2) ^ 2 ∧
    (∀ t : ℝ, 0 ≤ t → t ≤ T →
      alt_km_value (BallisticMissileKinematics.compute_initial_vertical_velocity T) t
        ≤ alt_km_value (BallisticMissileKinematics.compute_initial_vertical_velocity T)
            (T / 2)) := by
  refine ⟨?_, ?_, ?_, ?_, ?_, ?_⟩
  · intro t
    obtain ⟨plat, plon, hpos⟩ :=
      ballistic_get_current_position_built m bd lp _ t hbd hlp hv0
    exact ⟨_, hpos, rfl⟩
  · intro t _
    exact le_max_right _ _
  · unfold alt_km_value current_altitude_km
    norm_num
  · exact ballistic_alt_at_T T
  · rw [ballistic_alt_at_half]
    unfold current_altitude_km
    ring
  · intro t _ _
    exact ballistic_alt_le_half T t

/-- Witness for C2 at `T = 10` on the concrete built missile
`ballistic1`: the reported altitude at the full flight time is zero. -/
theorem C2_witness : (0:ℝ) ≤ 10 ∧
    alt_km_value (BallisticMissileKinematics.compute_initial_vertical_velocity 10) 10 = 0 :=
  ⟨by norm_num,
    (C2_ballistic_altitude_profile 10 (by norm_num) ballistic1 _ (0, 0)
      rfl rfl rfl).2.2.2.1⟩

/-! ### Lemmas about the Python float modulo. -/

/-- `float_mod` as a scaled fractional part. -/
lemma float_mod_eq (x m : ℝ) (hm : m ≠ 0) : Geo.float_mod x m = m * Int.fract (x / m) := by
  unfold Geo.float_mod
  rw [Int.fract]
  field_simp

/-- Python `%` with a positive modulus is non-negative. -/
lemma float_mod_nonneg (x m : ℝ) (hm : 0 < m) : 0 ≤ Geo.float_mod x m := by
  rw [float_mod_eq x m hm.ne']
  exact mul_nonneg hm.le (Int.fract_nonneg _)

/-- Python `%` with a positive modulus is below the modulus. -/
lemma float_mod_lt (x m : ℝ) (hm : 0 < m) : Geo.float_mod x m < m := by
  rw [float_mod_eq x m hm.ne']
  calc m * Int.fract (x / m) < m * 1 := (mul_lt_mul_left hm).mpr (Int.fract_lt_one _)
    _ = m := mul_one m

/-- Shifting the argument by the modulus does not change `float_mod`. -/
lemma float_mod_sub_period (x m : ℝ) (hm : m ≠ 0) :
    Geo.float_mod (x - m) m = Geo.float_mod x m := by
  unfold Geo.float_mod
  have h1 : (x - m) / m = x / m - 1 := by
    rw [sub_div, div_self hm]
  have h2 : ⌊x / m - 1⌋ = ⌊x / m⌋ - 1 := by
    have h := Int.floor_sub_int (x / m) 1
    simpa using h
  rw [h1, h2]
  push_cast
  ring

/-- `0 % 360 = 0`. -/
lemma float_mod_zero_360 : Geo.float_mod 0 360 = 0 := by
  unfold Geo.float_mod
  norm_num

/-- `90 % 360 = 90`. -/
lemma float_mod_90_360 : Geo.float_mod 90 360 = 90 := by
  unfold Geo.float_mod
  have h : ⌊(90:ℝ) / 360⌋ = 0 := Int.floor_eq_zero_iff.mpr (by norm_num [Set.mem_Ico])
  rw [h]
  norm_num

/-- C7: in degree mode `convert_trig_to_compass_angle` is
`(90 − a) mod 360` and in radian mode `(π/2 − a) mod 2π`; the result
lies in `[0, 360)` (resp. `[0, 2π)`); the degree map is periodic with
period 360 and sends 90 to 0 and 0 to 90. -/
theorem C7_trig_to_compass (a : ℝ) :
    Geo.convert_trig_to_compass_angle a false = Geo.float_mod (90 - a) 360 ∧
    Geo.convert_trig_to_compass_angle a true = Geo.float_mod (π / 2 - a) (2 * π) ∧
    0 ≤ Geo.convert_trig_to_compass_angle a false ∧
    Geo.convert_trig_to_compass_angle a false < 360 ∧
    0 ≤ Geo.convert_trig_to_compass_angle a true ∧
    Geo.convert_trig_to_compass_angle a true < 2 * π ∧
    Geo.convert_trig_to_compass_angle (a + 360) false
      = Geo.convert_trig_to_compass_angle a false ∧
    Geo.convert_trig_to_compass_angle 90 false = 0 ∧
    Geo.convert_trig_to_compass_angle 0 false = 90 := by
  have h2pi : (0:ℝ) < 2 * π := by positivity
  refine ⟨by simp [Geo.convert_trig_to_compass_angle],
    by simp [Geo.convert_trig_to_compass_angle], ?_, ?_, ?_, ?_, ?_, ?_, ?_⟩
  · simpa [Geo.convert_trig_to_compass_angle] using
      float_mod_nonneg (90 - a) 360 (by norm_num)
  · simpa [Geo.convert_trig_to_compass_angle] using
      float_mod_lt (90 - a) 360 (by norm_num)
  · simpa [Geo.convert_trig_to_compass_angle] using
      float_mod_nonneg (π / 2 - a) (2 * π) h2pi
  · simpa [Geo.convert_trig_to_compass_angle] using
      float_mod_lt (π / 2 - a) (2 * π) h2pi
  · simp only [Geo.convert_trig_to_compass_angle, Bool.false_eq_true, if_false]
    have h : 90 - (a + 360) = 90 - a - 360 := by ring
    rw [h, float_mod_sub_period (90 - a) 360 (by norm_num)]
  · simpa [Geo.convert_trig_to_compass_angle] using float_mod_zero_360
  · simpa [Geo.convert_trig_to_compass_angle] using float_mod_90_360

/-- C8 counterexample: the call that omits the `radians` flag does not
compute `(90 − a) mod 360`: at `a = 0` it returns `π/2`, not 90 (the
Python default is `radians=True`). -/
theorem C8_counterexample_default_not_degrees :
    Geo.convert_trig_to_compass_angle_default 0 ≠ Geo.float_mod (90 - 0) 360 := by
  have hq : π / 2 / (2 * π) = (1:ℝ) / 4 := by
    field_simp
    ring
  have hL : Geo.convert_trig_to_compass_angle_default 0 = π / 2 := by
    unfold Geo.convert_trig_to_compass_angle_default Geo.convert_trig_to_compass_angle
      Geo.float_mod
    rw [sub_zero, hq]
    norm_num
  have hR : Geo.float_mod (90 - 0) 360 = 90 := by
    rw [sub_zero]
    exact float_mod_90_360
  rw [hL, hR]
  intro h
  have h4 := Real.pi_lt_four
  linarith

/-- C8 amended: the call that omits the `radians` flag interprets its
argument in radians: it equals radian mode, i.e. `(π/2 − a) mod 2π`,
lies in `[0, 2π)`, and is periodic with period `2π`. -/
theorem C8_amended_default_is_radian_mode (a : ℝ) :
    Geo.convert_trig_to_compass_angle_default a = Geo.convert_trig_to_compass_angle a true ∧
    Geo.convert_trig_to_compass_angle_default a = Geo.float_mod (π / 2 - a) (2 * π) ∧
    0 ≤ Geo.convert_trig_to_compass_angle_default a ∧
    Geo.convert_trig_to_compass_angle_default a < 2 * π ∧
    Geo.convert_trig_to_compass_angle_default (a + 2 * π)
      = Geo.convert_trig_to_compass_angle_default a := by
  have h2pi : (0:ℝ) < 2 * π := by positivity
  refine ⟨rfl, by simp [Geo.convert_trig_to_compass_angle_default,
      Geo.convert_trig_to_compass_angle], ?_, ?_, ?_⟩
  · simpa [Geo.convert_trig_to_compass_angle_default, Geo.convert_trig_to_compass_angle] using
      float_mod_nonneg (π / 2 - a) (2 * π) h2pi
  · simpa [Geo.convert_trig_to_compass_angle_default, Geo.convert_trig_to_compass_angle] using
      float_mod_lt (π / 2 - a) (2 * π) h2pi
  · simp only [Geo.convert_trig_to_compass_angle_default, Geo.convert_trig_to_compass_angle,
      if_true]
    have h : π / 2 - (a + 2 * π) = π / 2 - a - 2 * π := by ring
    rw [h, float_mod_sub_period (π / 2 - a) (2 * π) h2pi.ne']

/-! ### Lemmas for the n-vector round trip. -/

/-- The float64 `np.pi` is strictly below the real `π`
(3.14159265358979311599… < 3.14159265358979323846 < π). -/
lemma np_pi_lt_pi : np_pi < π :=
  lt_trans (by unfold np_pi; norm_num) Real.pi_gt_d20

/-- The float64 `np.pi` is positive. -/
lemma np_pi_pos : 0 < np_pi := by
  unfold np_pi
  norm_num

/-- Degree-to-radian conversion inverts. -/
lemma rad_deg_roundtrip (x : ℝ) : Geo.rad_to_deg (Geo.deg_to_rad x) = x := by
  unfold Geo.rad_to_deg Geo.deg_to_rad
  have h : np_pi ≠ 0 := ne_of_gt np_pi_pos
  field_simp

/-- `np.arctan2(sin t, cos t) = t` on `(-π, π]`. -/
lemma np_arctan2_sin_cos (t : ℝ) (h1 : -π < t) (h2 : t ≤ π) :
    Geo.np_arctan2 (Real.sin t) (Real.cos t) = t := by
  unfold Geo.np_arctan2
  rw [Complex.ofReal_cos, Complex.ofReal_sin]
  exact Complex.arg_cos_add_sin_mul_I ⟨h1, h2⟩

/-- `np.arctan2(c·sin t, c·cos t) = t` on `(-π, π]` for `c > 0`. -/
lemma np_arctan2_smul_sin_cos (c t : ℝ) (hc : 0 < c) (h1 : -π < t) (h2 : t ≤ π) :
    Geo.np_arctan2 (c * Real.sin t) (c * Real.cos t) = t := by
  unfold Geo.np_arctan2
  have hmul : ((c * Real.cos t : ℝ) : ℂ) + ((c * Real.sin t : ℝ) : ℂ) * Complex.I
      = (c : ℂ) * (((Real.cos t : ℝ) : ℂ) + ((Real.sin t : ℝ) : ℂ) * Complex.I) := by
    push_cast
    ring
  rw [hmul, Complex.arg_real_mul _ hc, Complex.ofReal_cos, Complex.ofReal_sin]
  exact Complex.arg_cos_add_sin_mul_I ⟨h1, h2⟩

/-- C9: for every point with latitude in `[-90, 90]` and longitude in
`(-180, 180]` — the latitude boundaries included — converting to an
n-vector with `convert_latlon_to_nvector` and back with
`convert_nvector_to_latlon` returns the point exactly (in particular
within the claim's 1e-9° tolerance).  At the poles this relies on the
program's `np.pi` being strictly below `π`: the computed polar angle is
`np.pi/2 < π/2`, its cosine is positive, and `np.arctan2` recovers the
longitude from the (tiny but nonzero) horizontal components. -/
theorem C9_nvector_roundtrip (lat lon : ℝ) (h1 : -90 ≤ lat) (h2 : lat ≤ 90)
    (h3 : -180 < lon) (h4 : lon ≤ 180) :
    Geo.convert_nvector_to_latlon (Geo.convert_latlon_to_nvector lat lon) = (lat, lon) := by
  have hd20 := Real.pi_gt_d20
  have ht1 : -(π / 2) < Geo.deg_to_rad lat := by
    unfold Geo.deg_to_rad np_pi
    linarith
  have ht2 : Geo.deg_to_rad lat < π / 2 := by
    unfold Geo.deg_to_rad np_pi
    linarith
  have hl1 : -π < Geo.deg_to_rad lon := by
    unfold Geo.deg_to_rad np_pi
    linarith
  have hl2 : Geo.deg_to_rad lon ≤ π := by
    unfold Geo.deg_to_rad np_pi
    linarith
  set t := Geo.deg_to_rad lat with htdef
  set l := Geo.deg_to_rad lon with hldef
  have hcos : 0 < Real.cos t := Real.cos_pos_of_mem_Ioo ⟨ht1, ht2⟩
  have hsq : (Real.cos t * Real.cos l) ^ 2 + (Real.cos t * Real.sin l) ^ 2
      = Real.cos t ^ 2 := by
    have h := Real.sin_sq_add_cos_sq l
    nlinarith
  unfold Geo.convert_nvector_to_latlon Geo.convert_latlon_to_nvector
  simp only
  rw [hsq, Real.sqrt_sq hcos.le]
  rw [np_arctan2_sin_cos t (by linarith) (by linarith)]
  rw [np_arctan2_smul_sin_cos (Real.cos t) l hcos hl1 hl2]
  rw [htdef, hldef, rad_deg_roundtrip, rad_deg_roundtrip]

/-- Witness for C9 at Denver and at the north pole with longitude 45°
(the boundary case: the round trip recovers the longitude there
too). -/
theorem C9_witness :
    ((-90 : ℝ) ≤ 39.7392 ∧ (39.7392 : ℝ) ≤ 90 ∧ (-180 : ℝ) < -104.9903 ∧
      (-104.9903 : ℝ) ≤ 180 ∧
      Geo.convert_nvector_to_latlon (Geo.convert_latlon_to_nvector 39.7392 (-104.9903))
        = (39.7392, -104.9903)) ∧
    ((-90 : ℝ) ≤ 90 ∧ (90 : ℝ) ≤ 90 ∧ (-180 : ℝ) < 45 ∧ (45 : ℝ) ≤ 180 ∧
      Geo.convert_nvector_to_latlon (Geo.convert_latlon_to_nvector 90 45) = (90, 45)) :=
  ⟨⟨by norm_num, by norm_num, by norm_num, by norm_num,
    C9_nvector_roundtrip 39.7392 (-104.9903) (by norm_num) (by norm_num) (by norm_num)
      (by norm_num)⟩,
   ⟨by norm_num, by norm_num, by norm_num, by norm_num,
    C9_nvector_roundtrip 90 45 (by norm_num) (by norm_num) (by norm_num) (by norm_num)⟩⟩

/-! ### Lemmas about the sampling grid of `launch`. -/

/-- Every `np.arange(0, stop, step)` value is strictly below the stop. -/
lemma np_arange_lt (S dt : ℝ) (hdt : 0 < dt) : ∀ k ∈ np_arange S dt, k < S := by
  unfold np_arange
  intro k hk
  rw [List.mem_map] at hk
  obtain ⟨n, hn, rfl⟩ := hk
  rw [List.mem_range] at hn
  have hz : (n : ℤ) < ⌈S / dt⌉ := Int.lt_toNat.mp hn
  have hr : ((n : ℤ) : ℝ) < S / dt := Int.lt_ceil.mp hz
  have hr2 : (n : ℝ) < S / dt := by exact_mod_cast hr
  exact (lt_div_iff hdt).mp hr2

/-- The `np.arange` grid is strictly increasing. -/
lemma np_arange_sorted (S dt : ℝ) (hdt : 0 < dt) : (np_arange S dt).Sorted (· < ·) := by
  unfold np_arange List.Sorted
  rw [List.pairwise_map]
  refine List.Pairwise.imp ?_ (List.pairwise_lt_range _)
  intro a b hab
  exact mul_lt_mul_of_pos_right (by exact_mod_cast hab) hdt

/-- For a positive stop the grid starts at elapsed time zero. -/
lemma np_arange_head (S dt : ℝ) (hdt : 0 < dt) (hS : 0 < S) :
    ∃ rest, np_arange S dt = 0 :: rest := by
  have hpos : 0 < ⌈S / dt⌉ := Int.ceil_pos.mpr (div_pos hS hdt)
  obtain ⟨N, hN⟩ : ∃ N, (⌈S / dt⌉).toNat = N + 1 :=
    ⟨(⌈S / dt⌉).toNat - 1, by omega⟩
  refine ⟨List.map ((fun k : ℕ => (k : ℝ) * dt) ∘ Nat.succ) (List.range N), ?_⟩
  unfold np_arange
  rw [hN, List.range_succ_eq_map, List.map_cons, List.map_map]
  norm_num

/-- Python `round` of an exact integer is that integer. -/
lemma round_half_even_int (n : ℤ) : round_half_even (n : ℝ) = n := by
  unfold round_half_even
  rw [Int.floor_intCast]
  norm_num

/-- `round(x, 3)` fixes every multiple of `0.001`. -/
lemma python_round3_thousandth (n : ℤ) : python_round3 ((n : ℝ) / 1000) = (n : ℝ) / 1000 := by
  unfold python_round3
  have h : (n : ℝ) / 1000 * 1000 = (n : ℝ) := by field_simp
  rw [h, round_half_even_int]

/-- Reduction of an `Except` bind on a success value. -/
lemma except_bind_ok {α β : Type} (a : α) (f : α → Except PyError β) :
    (Except.ok a >>= f : Except PyError β) = f a := rfl

/-- `mapM` over `Except` of a body that tags each time with an `ok`
record succeeds and preserves the key list. -/
lemma mapM_keys (f : ℝ → Except PyError (ℝ × Position × Orientation)) :
    ∀ ts : List ℝ, (∀ t, ∃ pos ori, f t = .ok (t, pos, ori)) →
      ∃ l : List (ℝ × Position × Orientation), ts.mapM f = .ok l ∧ l.map Prod.fst = ts := by
  intro ts h
  induction ts with
  | nil => exact ⟨[], rfl, rfl⟩
  | cons t ts ih =>
    obtain ⟨pos, ori, hf⟩ := h t
    obtain ⟨l, hl, hfst⟩ := ih
    refine ⟨(t, pos, ori) :: l, ?_, by simp [hfst]⟩
    rw [List.mapM_cons, hf, hl]
    rfl

/-- A built missile's `get_current_position` always succeeds. -/
lemma built_position_ok (m : BallisticMissile) (bd : BallisticBuildData) (lp : ℝ × ℝ)
    (hbd : m.build_data = some bd) (hlp : m.LP_latlon_deg = some lp) (t : NFloat) :
    ∃ pos, m.get_current_position t = .ok pos := by
  simp [BallisticMissile.get_current_position, hbd, hlp]

/-- A built missile's `get_current_orientation` always succeeds. -/
lemma built_orientation_ok (m : BallisticMissile) (bd : BallisticBuildData) (lp ap : ℝ × ℝ)
    (hbd : m.build_data = some bd) (hlp : m.LP_latlon_deg = some lp)
    (hap : m.AP_latlon_deg = some ap) (t : NFloat) :
    ∃ ori, m.get_current_orientation t = .ok ori := by
  simp [BallisticMissile.get_current_orientation, BallisticMissile.get_current_position,
    hbd, hlp, hap]

/-- C3 counterexample: launching with a caller-supplied stop time of
`0.0001` s and a timestep of 1 s produces the single key `0`: the last
key is the rounded `round(0.0001, 3) = 0.0`, not the stop time itself,
so the trajectory does not end with an exact sample at the stop
time. -/
theorem C3_counterexample_round3 :
    launch_keys (1 / 10000) 1 = [0] ∧
    (launch_keys (1 / 10000) 1).getLast? = some 0 ∧ (0 : ℝ) ≠ 1 / 10000 := by
  have harange : np_arange (1 / 10000) 1 = [0] := by
    unfold np_arange
    have hceil : ⌈(1 / 10000 : ℝ) / 1⌉ = 1 := by
      rw [div_one, Int.ceil_eq_iff]
      constructor <;> norm_num
    rw [hceil]
    have h1 : List.range 1 = [0] := by decide
    rw [show Int.toNat 1 = 1 from rfl, h1]
    simp
  have hr3 : python_round3 (1 / 10000) = 0 := by
    unfold python_round3 round_half_even
    have hx : (1 / 10000 : ℝ) * 1000 = 1 / 10 := by norm_num
    rw [hx]
    have hfl : ⌊(1 / 10 : ℝ)⌋ = 0 := Int.floor_eq_zero_iff.mpr (by norm_num [Set.mem_Ico])
    rw [hfl]
    norm_num
  have hkeys : launch_keys (1 / 10000) 1 = [0] := by
    unfold launch_keys
    rw [harange, hr3]
    simp
  refine ⟨hkeys, by rw [hkeys]; rfl, by norm_num⟩

/-- C3 amended: for a positive timestep and a positive stop time `S`
that is a multiple of 0.001 s (so that `round(S, 3) = S`), the
trajectory key sequence starts at 0, ends with an exact final key `S`,
is strictly increasing, and never exceeds `S`; and `launch` on a built
missile produces exactly these keys.  (For a stop time that is not a
multiple of 0.001 the final key is `round(S, 3) ≠ S` — see the
counterexample.) -/
theorem C3_amended_launch_keys (S dt : ℝ) (hdt : 0 < dt) (hS : 0 < S) (n : ℤ)
    (hSn : S = (n : ℝ) / 1000) :
    (launch_keys S dt).head? = some 0 ∧
    (launch_keys S dt).getLast? = some S ∧
    (launch_keys S dt).Sorted (· < ·) ∧
    (∀ k ∈ launch_keys S dt, k ≤ S) ∧
    (∀ (m : BallisticMissile) (bd : BallisticBuildData) (lp ap : ℝ × ℝ),
      m.build_data = some bd → m.LP_latlon_deg = some lp → m.AP_latlon_deg = some ap →
      m.params.timestep_sec = dt →
      ∃ (m' : BallisticMissile) (tr : Trajectory),
        m.launch (some (.fin S)) = .ok m' ∧ m'.trajectory_data = some tr ∧
        tr.map Prod.fst = launch_keys S dt) := by
  have hr3 : python_round3 S = S := by rw [hSn]; exact python_round3_thousandth n
  have hlt := np_arange_lt S dt hdt
  have hnot : S ∉ np_arange S dt := fun h => absurd (hlt S h) (lt_irrefl S)
  have hkeys : launch_keys S dt = np_arange S dt ++ [S] := by
    unfold launch_keys
    rw [hr3, if_neg hnot]
  obtain ⟨rest, hcons⟩ := np_arange_head S dt hdt hS
  refine ⟨?_, ?_, ?_, ?_, ?_⟩
  · rw [hkeys, hcons]; rfl
  · rw [hkeys, List.getLast?_append_cons]; rfl
  · rw [hkeys]
    unfold List.Sorted
    rw [List.pairwise_append]
    refine ⟨np_arange_sorted S dt hdt, List.pairwise_singleton _ _, ?_⟩
    intro x hx y hy
    rw [List.mem_singleton] at hy
    subst hy
    exact hlt x hx
  · intro k hk
    rw [hkeys, List.mem_append] at hk
    rcases hk with hk | hk
    · exact (hlt k hk).le
    · rw [List.mem_singleton] at hk
      exact hk.le
  · intro m bd lp ap hbd hlp hap hts
    have hfun : ∀ t : ℝ, ∃ pos ori,
        (do
          let pos ← m.get_current_position (.fin t)
          let ori ← m.get_current_orientation (.fin t)
          pure ((t, pos, ori) : ℝ × Position × Orientation)) = Except.ok (t, pos, ori) := by
      intro t
      obtain ⟨pos, hpos⟩ := built_position_ok m bd lp hbd hlp (.fin t)
      obtain ⟨ori, hori⟩ := built_orientation_ok m bd lp ap hbd hlp hap (.fin t)
      refine ⟨pos, ori, ?_⟩
      rw [hpos, hori]
      rfl
    obtain ⟨l, hl, hfst⟩ := mapM_keys _ (np_arange S dt) hfun
    obtain ⟨fpos, hfpos⟩ := built_position_ok m bd lp hbd hlp (.fin S)
    obtain ⟨fori, hfori⟩ := built_orientation_ok m bd lp ap hbd hlp hap (.fin S)
    set tr := insert_entry l (python_round3 S) (fpos, fori) with htr
    refine ⟨{ m with trajectory_data := some tr }, tr, ?_, rfl, ?_⟩
    · unfold BallisticMissile.launch
      rw [hts]
      simp only [except_bind_ok]
      simp only [hl, except_bind_ok, hfpos, hfori]
      rfl
    · rw [htr]
      unfold insert_entry
      rw [hfst, hr3, if_neg hnot, List.map_append, hfst, hkeys]
      rfl

/-- Witness for C3 (amended) at `S = 2` s (a multiple of 0.001 s) and
timestep 0.75 s: the last key is exactly 2. -/
theorem C3_witness :
    (0:ℝ) < 3 / 4 ∧ (0:ℝ) < 2 ∧ (2:ℝ) = ((2000 : ℤ) : ℝ) / 1000 ∧
      (launch_keys 2 (3 / 4)).getLast? = some 2 :=
  ⟨by norm_num, by norm_num, by norm_num,
    (C3_amended_launch_keys 2 (3 / 4) (by norm_num) (by norm_num) 2000 (by norm_num)).2.1⟩

/-! ### Lemmas about the build/launch error behaviour. -/

/-- Reduction of an `Except` bind on an error value. -/
lemma except_bind_error {α β : Type} (e : PyError) (f : α → Except PyError β) :
    ((Except.error e : Except PyError α) >>= f) = Except.error e := rfl

/-- `np.arctan2(0, 1) = 0`. -/
lemma np_arctan2_zero_one : Geo.np_arctan2 0 1 = 0 := by
  unfold Geo.np_arctan2
  have h : ((1 : ℝ) : ℂ) + ((0 : ℝ) : ℂ) * Complex.I = 1 := by
    push_cast
    ring
  rw [h, Complex.arg_one]

/-- The haversine distance from a point to itself is zero. -/
lemma great_circle_distance_self : Geo.calculate_great_circle_distance 0 0 0 0 = 0 := by
  unfold Geo.calculate_great_circle_distance Geo.deg_to_rad
  norm_num [np_arctan2_zero_one]

/-- A ballistic `build` with launchpoint and aimpoint set always
succeeds, storing the float64 quotient distance/velocity as the total
flight time (there is no input validation). -/
lemma ballistic_build_ok (m : BallisticMissile) (lp ap : ℝ × ℝ)
    (hlp : m.LP_latlon_deg = some lp) (hap : m.AP_latlon_deg = some ap) :
    ∃ (m' : BallisticMissile) (bd : BallisticBuildData), m.build = .ok m' ∧
      m'.build_data = some bd ∧
      bd.total_time_to_target_sec =
        (NFloat.fin (Geo.calculate_great_circle_distance lp.1 lp.2 ap.1 ap.2)).div
          (.fin m.params.horizontal_velocity_km_sec) := by
  unfold BallisticMissile.build Missile.compute_distance_to_target Missile.compute_bearing
  rw [hlp, hap]
  simp only [except_bind_ok]
  exact ⟨_, _, rfl, rfl, rfl⟩

/-- C4 counterexample: with `horizontal_velocity_km_sec = 0` (and a
zero-distance launch/aim pair), `build()` does not fail: it returns
normally and stores `total_time_to_target_sec = NaN` (numpy emits a
RuntimeWarning for `0.0/0`, not an exception). -/
theorem C4_counterexample_build_succeeds :
    ∃ (m' : BallisticMissile) (bd : BallisticBuildData),
      ballisticZeroVelocity.build = .ok m' ∧ m'.build_data = some bd ∧
      bd.total_time_to_target_sec = NFloat.nan := by
  obtain ⟨m', bd, hok, hbd, htime⟩ :=
    ballistic_build_ok ballisticZeroVelocity (0, 0) (0, 0) rfl rfl
  refine ⟨m', bd, hok, hbd, ?_⟩
  rw [htime]
  rw [show ((0, 0) : ℝ × ℝ).1 = 0 from rfl, show ((0, 0) : ℝ × ℝ).2 = 0 from rfl]
  rw [great_circle_distance_self]
  exact NFloat.div_fin_zero_zero

/-- C4 amended: building with `horizontal_velocity_km_sec = 0` does not
raise any error; `build` completes and the stored
`total_time_to_target_sec` is the float64 value `dist / 0`, which is
never finite (`inf` for positive distance, `NaN` for zero distance). -/
theorem C4_amended_zero_velocity_no_error (m : BallisticMissile) (lp ap : ℝ × ℝ)
    (hlp : m.LP_latlon_deg = some lp) (hap : m.AP_latlon_deg = some ap)
    (hv : m.params.horizontal_velocity_km_sec = 0) :
    ∃ (m' : BallisticMissile) (bd : BallisticBuildData), m.build = .ok m' ∧
      m'.build_data = some bd ∧ ∀ x : ℝ, bd.total_time_to_target_sec ≠ .fin x := by
  obtain ⟨m', bd, hok, hbd, htime⟩ := ballistic_build_ok m lp ap hlp hap
  refine ⟨m', bd, hok, hbd, ?_⟩
  intro x hx
  rw [htime, hv] at hx
  simp only [NFloat.div] at hx
  split_ifs at hx <;> exact NFloat.noConfusion hx

/-- Witness for C4 (amended) on the concrete zero-velocity missile. -/
theorem C4_witness :
    ∃ (m' : BallisticMissile) (bd : BallisticBuildData),
      ballisticZeroVelocity.build = .ok m' ∧ m'.build_data = some bd ∧
      ∀ x : ℝ, bd.total_time_to_target_sec ≠ .fin x :=
  C4_amended_zero_velocity_no_error ballisticZeroVelocity (0, 0) (0, 0) rfl rfl rfl

/-- A `TerminalInterceptor.build` with a set, built target (with set
launchpoint and a `launch_time` in the target's params) and its own
launchpoint set always succeeds: no geometric validation is performed,
the targeted missile's state is returned untouched, and the only
caller-visible params change is the derived `launch_time` key. -/
lemma interceptor_build_ok (i : TerminalInterceptor) (tm : BallisticMissile)
    (bd : BallisticBuildData) (lp tlp : ℝ × ℝ) (t0 : NFloat)
    (htm : i.targeted_missile = some tm) (hbd : tm.build_data = some bd)
    (htlp : tm.LP_latlon_deg = some tlp) (hlp : i.LP_latlon_deg = some lp)
    (hlt : tm.params.launch_time = some t0) :
    ∃ (i' : TerminalInterceptor) (lt : NFloat), TerminalInterceptor.build i = .ok i' ∧
      i'.targeted_missile = some tm ∧
      i'.params = { i.params with launch_time := some lt } ∧
      i'.LP_latlon_deg = i.LP_latlon_deg ∧
      i'.intercept_time_sec = some ((bd.launchpoint_dist_to_target_km.sub
        (.fin i.params.intercept_distance_from_target_km)).div
          bd.horizontal_velocity_km_sec) := by
  unfold TerminalInterceptor.build TerminalInterceptor.get_intercept_time_and_position
    TerminalInterceptor.get_interceptor_launch_time
    Missile.compute_distance_to_target_nf Missile.compute_bearing_nf
    BallisticMissile.get_current_position
  simp only [htm, hbd, htlp, hlp, hlt, except_bind_ok]
  exact ⟨_, _, rfl, rfl, rfl, rfl, rfl⟩

/-- C5 counterexample: `interceptor0` asks for an intercept point 200 km
before the aimpoint of a target whose whole ground track is 100 km, so
the derived intercept time is −100 s; `build()` does not report any
solve failure — it returns successfully with the negative time
stored. -/
theorem C5_counterexample_no_failure_reported :
    ∃ i' : TerminalInterceptor, interceptor0.build = .ok i' ∧
      i'.intercept_time_sec = some (.fin (-100)) ∧ (-100 : ℝ) < 0 := by
  obtain ⟨i', lt, hok, _, _, _, htime⟩ :=
    interceptor_build_ok interceptor0 target0 _ (1, 1) (0, 0) (.fin 0) rfl rfl rfl rfl rfl
  refine ⟨i', hok, ?_, by norm_num⟩
  rw [htime]
  show some (((NFloat.fin 100).sub (NFloat.fin 200)).div (NFloat.fin 1))
    = some (NFloat.fin (-100))
  rw [NFloat.sub_fin, NFloat.div_fin_of_ne _ _ (by norm_num : (1:ℝ) ≠ 0)]
  norm_num

/-- C5 amended: `build` performs no intercept-geometry validation: when
the requested intercept distance exceeds the target's ground distance
it computes a negative intercept time and proceeds to a successful
build anyway.  The only failure the solve path reports is the
precondition `ValueError` for an unset target. -/
theorem C5_amended_no_geometry_validation (i : TerminalInterceptor)
    (tm : BallisticMissile) (bd : BallisticBuildData) (lp tlp : ℝ × ℝ) (t0 : NFloat)
    (d hv : ℝ)
    (htm : i.targeted_missile = some tm) (hbd : tm.build_data = some bd)
    (htlp : tm.LP_latlon_deg = some tlp) (hlp : i.LP_latlon_deg = some lp)
    (hlt : tm.params.launch_time = some t0)
    (hd : bd.launchpoint_dist_to_target_km = .fin d)
    (hhv : bd.horizontal_velocity_km_sec = .fin hv) (hvpos : 0 < hv)
    (hneg : d < i.params.intercept_distance_from_target_km) :
    (∃ i' : TerminalInterceptor, TerminalInterceptor.build i = .ok i' ∧
      i'.intercept_time_sec = some
        (.fin ((d - i.params.intercept_distance_from_target_km) / hv)) ∧
      (d - i.params.intercept_distance_from_target_km) / hv < 0) ∧
    (∀ j : TerminalInterceptor, j.targeted_missile = none →
      TerminalInterceptor.build j =
        .error (.valueError "Attribute targeted_missile must be set (currently None).")) := by
  constructor
  · obtain ⟨i', lt, hok, _, _, _, htime⟩ :=
      interceptor_build_ok i tm bd lp tlp t0 htm hbd htlp hlp hlt
    refine ⟨i', hok, ?_, div_neg_of_neg_of_pos (by linarith) hvpos⟩
    rw [htime, hd, hhv, NFloat.sub_fin, NFloat.div_fin_of_ne _ _ (ne_of_gt hvpos)]
  · intro j hj
    unfold TerminalInterceptor.build TerminalInterceptor.get_intercept_time_and_position
    rw [hj]
    rfl

/-- Witness for C5 (amended) on `interceptor0` and `target0`
(`d = 100 km`, intercept distance 200 km, target velocity 1 km/s). -/
theorem C5_witness : (0:ℝ) < 1 ∧
    (100:ℝ) < interceptor0.params.intercept_distance_from_target_km ∧
    ∃ i' : TerminalInterceptor, interceptor0.build = .ok i' ∧
      i'.intercept_time_sec = some
        (.fin ((100 - interceptor0.params.intercept_distance_from_target_km) / 1)) ∧
      (100 - interceptor0.params.intercept_distance_from_target_km) / 1 < 0 :=
  ⟨by norm_num, by norm_num [interceptor0],
    (C5_amended_no_geometry_validation interceptor0 target0 _ (1, 1) (0, 0) (.fin 0)
      100 1 rfl rfl rfl rfl rfl rfl rfl (by norm_num)
      (by norm_num [interceptor0])).1⟩

/-- C10 counterexample: `build` mutates the caller-supplied params
mapping: `interceptor0`'s params dict has no `launch_time` key before
the build and gains one during it, so the params after the build differ
from the params supplied by the caller. -/
theorem C10_counterexample_params_mutated :
    ∃ i' : TerminalInterceptor, interceptor0.build = .ok i' ∧
      i'.params ≠ interceptor0.params := by
  obtain ⟨i', lt, hok, _, hparams, _, _⟩ :=
    interceptor_build_ok interceptor0 target0 _ (1, 1) (0, 0) (.fin 0) rfl rfl rfl rfl rfl
  refine ⟨i', hok, ?_⟩
  rw [hparams]
  intro h
  have h2 := congrArg Params.launch_time h
  simp [interceptor0] at h2

/-- C10 amended: `build` leaves the targeted missile's entire state
unchanged and leaves the interceptor's own launchpoint untouched, but
it does write the derived `launch_time` into the interceptor's own
(caller-supplied) params mapping; no other params field changes. -/
theorem C10_amended_target_unchanged_params_launch_time (i : TerminalInterceptor)
    (tm : BallisticMissile) (bd : BallisticBuildData) (lp tlp : ℝ × ℝ) (t0 : NFloat)
    (htm : i.targeted_missile = some tm) (hbd : tm.build_data = some bd)
    (htlp : tm.LP_latlon_deg = some tlp) (hlp : i.LP_latlon_deg = some lp)
    (hlt : tm.params.launch_time = some t0) :
    ∃ (i' : TerminalInterceptor) (lt : NFloat), TerminalInterceptor.build i = .ok i' ∧
      i'.targeted_missile = i.targeted_missile ∧
      i'.LP_latlon_deg = i.LP_latlon_deg ∧
      i'.params = { i.params with launch_time := some lt } := by
  obtain ⟨i', lt, hok, htm', hparams, hlp', _⟩ :=
    interceptor_build_ok i tm bd lp tlp t0 htm hbd htlp hlp hlt
  exact ⟨i', lt, hok, by rw [htm', htm], hlp', hparams⟩

/-- Witness for C10 (amended) on `interceptor0` targeting `target0`. -/
theorem C10_witness :
    ∃ (i' : TerminalInterceptor) (lt : NFloat), interceptor0.build = .ok i' ∧
      i'.targeted_missile = interceptor0.targeted_missile ∧
      i'.LP_latlon_deg = interceptor0.LP_latlon_deg ∧
      i'.params = { interceptor0.params with launch_time := some lt } :=
  C10_amended_target_unchanged_params_launch_time interceptor0 target0 _ (1, 1) (0, 0)
    (.fin 0) rfl rfl rfl rfl rfl

/-- C6 amended: on a missile whose `build_data` is still unset, both
`get_current_position` and `launch` (with the default stop time or any
finite caller-supplied one) fail immediately with the `TypeError` from
subscripting `None`, and `launch` never returns an updated missile —
no partially-populated trajectory is produced. -/
theorem C6_amended_unbuilt_fails_fast (m : BallisticMissile)
    (h : m.build_data = none) :
    (∀ t : NFloat, m.get_current_position t = .error noneSubscript) ∧
    m.launch none = .error noneSubscript ∧
    (∀ s : ℝ, m.launch (some (.fin s)) = .error noneSubscript) ∧
    (∀ (arg : Option NFloat) (m' : BallisticMissile), m.launch arg ≠ .ok m') := by
  have hpos : ∀ t : NFloat, m.get_current_position t = .error noneSubscript := by
    intro t
    unfold BallisticMissile.get_current_position
    rw [h]
  have hnone : m.launch none = .error noneSubscript := by
    unfold BallisticMissile.launch
    rw [h]
    rfl
  have hmapM : ∀ (f : ℝ → Except PyError (ℝ × Position × Orientation)) (e : PyError),
      (∀ t, f t = .error e) → ∀ ts : List ℝ,
        ts.mapM f = .ok [] ∨ ts.mapM f = .error e := by
    intro f e hf ts
    cases ts with
    | nil => exact Or.inl rfl
    | cons a l =>
      right
      rw [List.mapM_cons, hf a]
      rfl
  have hfin : ∀ s : ℝ, m.launch (some (.fin s)) = .error noneSubscript := by
    intro s
    unfold BallisticMissile.launch
    simp only [except_bind_ok]
    have hf : ∀ t : ℝ, (do
        let pos ← m.get_current_position (.fin t)
        let ori ← m.get_current_orientation (.fin t)
        pure ((t, pos, ori) : ℝ × Position × Orientation)) = Except.error noneSubscript := by
      intro t
      rw [hpos (.fin t)]
      rfl
    rcases hmapM _ noneSubscript hf (np_arange s m.params.timestep_sec) with hcase | hcase
    · rw [hcase, except_bind_ok, hpos (.fin s), except_bind_error]
    · rw [hcase, except_bind_error]
  refine ⟨hpos, hnone, hfin, ?_⟩
  intro arg m'
  match arg with
  | none => rw [hnone]; intro hx; cases hx
  | some (.fin s) => rw [hfin s]; intro hx; cases hx
  | some .inf =>
    unfold BallisticMissile.launch
    intro hx
    cases hx
  | some .ninf =>
    unfold BallisticMissile.launch
    intro hx
    cases hx
  | some .nan =>
    unfold BallisticMissile.launch
    intro hx
    cases hx

/-- Witness for C6 (amended): the unbuilt fixture fails on a position
query and on `launch()`. -/
theorem C6_witness :
    ballisticUnbuilt.get_current_position (.fin 0) = .error noneSubscript ∧
    ballisticUnbuilt.launch none = .error noneSubscript :=
  ⟨(C6_amended_unbuilt_fails_fast ballisticUnbuilt rfl).1 (.fin 0),
    (C6_amended_unbuilt_fails_fast ballisticUnbuilt rfl).2.1⟩

/-- C6 counterexample: the error raised before `build` is the generic
`TypeError: NoneType object is not subscriptable`; its message does not
mention `build`, so it is not a descriptive error identifying the
violated precondition. -/
theorem C6_counterexample_error_not_descriptive :
    ballisticUnbuilt.get_current_position (.fin 0) = .error noneSubscript ∧
    ¬ ("build".toList <:+: noneSubscript.msg.toList) := by
  constructor
  · rfl
  · decide

end MissileIntercepts
